import Mathlib

/-
Verification of the vibekeys_app BLE-to-HTTP gateway (src/main.rs) against its
natural-language specification.  The single source file is shallowly embedded:
the btleplug adapter and peripheral are modelled as data (each adapter call's
outcome is a field of the Peripheral record), and every embedded function
returns, along with its result, the list of adapter / shared-handle actions it
performed, in order.  Unbounded retry loops are modelled with fuel: a result of
none means the loop was still running when the fuel ran out (it never
terminated with a surfaced value within that many passes).
-/

namespace Vibekeys

/-- Controller Service UUID, Uuid.from_u128 constant from main.rs. -/
def CONTROLLER_SERVICE_ID : Nat := 0x9c80ffb6affa4083944a91e34c88bd76

/-- Keyboard Display Characteristic UUID, Uuid.from_u128 constant from main.rs. -/
def KEYBOARD_DISPLAY_ID : Nat := 0xcdaa647267a8424193cf145051608573

/-- Advertised properties of a scanned peripheral (btleplug PeripheralProperties,
restricted to the fields main.rs reads): optional local name, optional RSSI,
list of advertised service UUIDs. -/
structure PeripheralProperties where
  local_name : Option String
  rssi : Option Int
  services : List Nat
deriving DecidableEq

/-- A GATT characteristic as main.rs uses it: its UUID (matched against
KEYBOARD_DISPLAY_ID) plus the UUID of its enclosing service, kept so that two
distinct characteristics carrying the same characteristic UUID remain
distinguishable. -/
structure Characteristic where
  uuid : Nat
  service_uuid : Nat
deriving DecidableEq

/-- A btleplug PlatformPeripheral, embedded as the outcomes of the adapter
calls main.rs performs on it.  props is the result of properties() (Err,
Ok None, or Ok Some); connectResult, discoverResult, isConnectedResult and
writeResult are the outcomes of connect(), discover_services(),
is_connected() and write(). -/
structure Peripheral where
  addr : Nat
  props : Except String (Option PeripheralProperties)
  connectResult : Except String Unit
  discoverResult : Except String Unit
  characteristics : List Characteristic
  writeResult : Characteristic → String → Except String Unit
  isConnectedResult : Except String Bool

/-- One adapter or shared-handle operation, recorded in order of execution. -/
inductive Action where
  | startScan (filter : List Nat)
  | stopScan
  | sleep (secs : Nat)
  | connect (addr : Nat)
  | discoverServices
  | listCharacteristics
  | write (c : Characteristic) (message : String)
  | setHandle (addr : Option Nat)
  | isConnectedCheck
deriving DecidableEq

/-- The HTTP-level outcome of a request: 200 with the echoed message, an error
status with a body, or rejection of the request body by the JSON extractor
before the handler runs. -/
inductive HResp where
  | ok (message : String)
  | err (code : Nat) (body : String)
  | rejected
deriving DecidableEq

/-- The body loop of find_and_print_peripherals (main.rs lines 319-345): walk
the peripheral list in report order; a properties() Err propagates via the ?
operator, Ok None falls through the if-let and is skipped, and on Ok Some the
device is recorded as the result only when the target service is advertised
and no earlier result was recorded.  The loop does not break on a match. -/
def findLoop (target_service : Nat) (acc : Option Peripheral) :
    List Peripheral → Except String (Option Peripheral)
  | [] => Except.ok acc
  | p :: rest =>
    match p.props with
    | Except.error e => Except.error e
    | Except.ok none => findLoop target_service acc rest
    | Except.ok (some pr) =>
      findLoop target_service
        (if pr.services.any (fun s => s == target_service) then
          (if acc.isNone then some p else acc)
         else acc) rest

/-- find_and_print_peripherals (main.rs lines 315-346): the Device Selector. -/
def find_and_print_peripherals (peripherals : List Peripheral)
    (target_service : Nat) : Except String (Option Peripheral) :=
  findLoop target_service none peripherals

/-- True when the device advertises the target service: properties() returned
Ok Some and the service list contains the target UUID. -/
def hasService (target_service : Nat) (p : Peripheral) : Bool :=
  match p.props with
  | Except.ok (some pr) => pr.services.any (fun s => s == target_service)
  | _ => false

/-- True when properties() returned Ok (readable device). -/
def propsOk (p : Peripheral) : Bool :=
  match p.props with
  | Except.ok _ => true
  | _ => false

/-- True when properties() returned Err. -/
def propsErr (p : Peripheral) : Bool :=
  match p.props with
  | Except.error _ => true
  | _ => false

/-- Replace the advertised RSSI of a readable device by f applied to its
address, leaving everything else (in particular the service list) unchanged. -/
def setRssi (f : Nat → Option Int) (p : Peripheral) : Peripheral :=
  { p with props :=
      match p.props with
      | Except.ok (some pr) => Except.ok (some { pr with rssi := f p.addr })
      | x => x }

/-- Forget everything about a selector result except the selected address,
to compare selections across RSSI reassignments. -/
def resultAddr (r : Except String (Option Peripheral)) :
    Except String (Option Nat) :=
  Except.map (fun o => Option.map Peripheral.addr o) r

/-- The for-loop of send_message (main.rs lines 377-389) over a characteristic
list: at the first characteristic whose uuid equals char_uuid, one confirmed
write is attempted and the function returns immediately (Ok on write success,
the error on write failure); if no characteristic matches, the miss is only
logged and Ok is returned with no write performed. -/
def sendLoop (p : Peripheral) (char_uuid : Nat) (message : String) :
    List Characteristic → Except String Unit × List Action
  | [] => (Except.ok (), [])
  | c :: rest =>
    if c.uuid == char_uuid then
      match p.writeResult c message with
      | Except.ok _ => (Except.ok (), [Action.write c message])
      | Except.error e => (Except.error e, [Action.write c message])
    else sendLoop p char_uuid message rest

/-- send_message (main.rs lines 370-393): resolve the characteristic fresh
from the connection's current characteristic list and dispatch the message. -/
def send_message (p : Peripheral) (char_uuid : Nat) (message : String) :
    Except String Unit × List Action :=
  sendLoop p char_uuid message p.characteristics

/-- connect_and_discover (main.rs lines 349-367): connect (? propagates),
settle 1s, discover services (? propagates), settle 1s, enumerate
characteristics for a diagnostic count, then write the fixed Connected
greeting with its result discarded (let _ =), and return Ok. -/
def connect_and_discover (p : Peripheral) : Except String Unit × List Action :=
  match p.connectResult with
  | Except.error e => (Except.error e, [Action.connect p.addr])
  | Except.ok _ =>
    match p.discoverResult with
    | Except.error e =>
      (Except.error e, [Action.connect p.addr, Action.sleep 1, Action.discoverServices])
    | Except.ok _ =>
      (Except.ok (),
       [Action.connect p.addr, Action.sleep 1, Action.discoverServices,
        Action.sleep 1, Action.listCharacteristics]
         ++ (send_message p KEYBOARD_DISPLAY_ID "Connected").2)

/-- send_to_peripheral (main.rs lines 227-245): lock the shared handle; when
empty answer 503 with the fixed unavailability body and perform nothing; when
present call send_message, turning a surfaced error into 500 with the error
text and success into 200 echoing the message. -/
def send_to_peripheral (handle : Option Peripheral) (message : String) :
    HResp × List Action :=
  match handle with
  | none => (HResp.err 503 "No BLE device connected", [])
  | some p =>
    match (send_message p KEYBOARD_DISPLAY_ID message).1 with
    | Except.error e => (HResp.err 500 e, (send_message p KEYBOARD_DISPLAY_ID message).2)
    | Except.ok _ => (HResp.ok message, (send_message p KEYBOARD_DISPLAY_ID message).2)

/-- The three status tokens of the Status enum (main.rs lines 45-51). -/
inductive Status where
  | working
  | stopped
  | pending
deriving DecidableEq

/-- Body of a POST /send request (main.rs lines 58-61). -/
structure SendMessageRequest where
  message : String

/-- Body of a POST /status request (main.rs lines 53-56). -/
structure StatusRequest where
  status : Status

/-- Serde deserialization of the status token (main.rs lines 45-51): the
derived Deserialize with rename_all lowercase matches the JSON string
case-sensitively against the lowercased variant names working, stopped,
pending, and fails on every other string. -/
def parseStatusToken (t : String) : Option Status :=
  if t = "working" then some Status.working
  else if t = "stopped" then some Status.stopped
  else if t = "pending" then some Status.pending
  else none

/-- The fixed literal message each status maps to (main.rs lines 251-255). -/
def statusMessage : Status → String
  | Status.working => "[working]"
  | Status.stopped => "[stopped]"
  | Status.pending => "[pending]"

/-- GET /send handler (main.rs lines 214-218). -/
def send_message_handler (handle : Option Peripheral) : HResp × List Action :=
  send_to_peripheral handle "Hello from HTTP GET!"

/-- POST /send handler (main.rs lines 220-225). -/
def send_message_post (handle : Option Peripheral) (req : SendMessageRequest) :
    HResp × List Action :=
  send_to_peripheral handle req.message

/-- POST /status handler body (main.rs lines 247-257), after the Json
extractor has produced a StatusRequest. -/
def status_handler (handle : Option Peripheral) (req : StatusRequest) :
    HResp × List Action :=
  send_to_peripheral handle (statusMessage req.status)

/-- The full POST /status route: the axum Json extractor deserializes the
status token before the handler runs, rejecting the request without invoking
the handler when the token is not one of the three accepted strings. -/
def status_route (handle : Option Peripheral) (token : String) :
    HResp × List Action :=
  match parseStatusToken token with
  | none => (HResp.rejected, [])
  | some s => status_handler handle { status := s }

/-- The scan filter used at bootstrap (main.rs lines 157-158):
ScanFilter::default() with CONTROLLER_SERVICE_ID pushed onto its services. -/
def bootFilter : List Nat := [CONTROLLER_SERVICE_ID]

/-- The bootstrap target-acquisition loop of main (main.rs lines 166-176),
entered after the initial start_scan and settle sleep, with fuel bounding the
number of selector passes observed.  env k is the peripheral view of pass k.
A selector pass returning Ok Some breaks with the target after stop_scan; a
selector Err propagates via ?; Ok None stops the scan, sleeps, rescans with
the bootstrap filter, sleeps, and retries. -/
def bootstrapFindLoop (env : Nat → List Peripheral) :
    Nat → Nat → Option (Except String Peripheral) × List Action
  | 0, _ => (none, [])
  | fuel+1, k =>
    match find_and_print_peripherals (env k) CONTROLLER_SERVICE_ID with
    | Except.error e => (some (Except.error e), [])
    | Except.ok (some p) => (some (Except.ok p), [Action.stopScan])
    | Except.ok none =>
      ((bootstrapFindLoop env fuel (k+1)).1,
       [Action.stopScan, Action.sleep 5, Action.startScan bootFilter, Action.sleep 5]
         ++ (bootstrapFindLoop env fuel (k+1)).2)

/-- The connection-acquisition phase of main (main.rs lines 157-184): filtered
start_scan, settle, the bootstrap find loop, then connect_and_discover on the
selected target with ? (its error propagates out of main, aborting startup),
and on success the publication of the connection into the shared handle.
Result some (Except.error e) means main returned Err e (process abort);
some (Except.ok (some p)) means the handle was published with p; none means
the find loop was still retrying when the fuel ran out. -/
def mainBootstrap (env : Nat → List Peripheral) (fuel : Nat) :
    Option (Except String (Option Peripheral)) × List Action :=
  match (bootstrapFindLoop env fuel 0).1 with
  | none =>
    (none,
     [Action.startScan bootFilter, Action.sleep 5] ++ (bootstrapFindLoop env fuel 0).2)
  | some (Except.error e) =>
    (some (Except.error e),
     [Action.startScan bootFilter, Action.sleep 5] ++ (bootstrapFindLoop env fuel 0).2)
  | some (Except.ok target) =>
    match (connect_and_discover target).1 with
    | Except.error e =>
      (some (Except.error e),
       [Action.startScan bootFilter, Action.sleep 5] ++ (bootstrapFindLoop env fuel 0).2
         ++ (connect_and_discover target).2)
    | Except.ok _ =>
      (some (Except.ok (some target)),
       [Action.startScan bootFilter, Action.sleep 5] ++ (bootstrapFindLoop env fuel 0).2
         ++ (connect_and_discover target).2 ++ [Action.setHandle (some target.addr)])

/-- The inner reconnection loop of ble_monitor_task (main.rs lines 284-307):
each pass starts an unfiltered scan (ScanFilter::default()), settles, reads
the peripherals and runs the Device Selector; a selector Err propagates via ?
(killing the monitor task); Ok None stops the scan and sleeps before the next
pass; Ok Some stops the scan and runs connect_and_discover, whose failure is
logged and continues to the next pass, and whose success installs the new
connection into the shared handle and breaks. -/
def reconnectLoop (env : Nat → List Peripheral) :
    Nat → Nat → Option (Except String Peripheral) × List Action
  | 0, _ => (none, [])
  | fuel+1, k =>
    match find_and_print_peripherals (env k) CONTROLLER_SERVICE_ID with
    | Except.error e => (some (Except.error e), [Action.startScan [], Action.sleep 5])
    | Except.ok none =>
      ((reconnectLoop env fuel (k+1)).1,
       [Action.startScan [], Action.sleep 5, Action.stopScan, Action.sleep 5]
         ++ (reconnectLoop env fuel (k+1)).2)
    | Except.ok (some target) =>
      match (connect_and_discover target).1 with
      | Except.error _ =>
        ((reconnectLoop env fuel (k+1)).1,
         [Action.startScan [], Action.sleep 5, Action.stopScan]
           ++ (connect_and_discover target).2 ++ (reconnectLoop env fuel (k+1)).2)
      | Except.ok _ =>
        (some (Except.ok target),
         [Action.startScan [], Action.sleep 5, Action.stopScan]
           ++ (connect_and_discover target).2 ++ [Action.setHandle (some target.addr)])

/-- One tick of ble_monitor_task (main.rs lines 270-311): an empty handle is a
no-op; a present connection is liveness-checked with is_connected, where only
Ok true counts as alive; on any other result the guard is dropped, the shared
handle is set to None, and the inner reconnection loop runs.  The result
mirrors the handle contents after the tick (or the monitor task's own error
when the reconnection loop propagated one; none when the loop was still
retrying at fuel exhaustion). -/
def monitorTick (env : Nat → List Peripheral) (fuel : Nat)
    (handle : Option Peripheral) :
    Option (Except String (Option Peripheral)) × List Action :=
  match handle with
  | none => (some (Except.ok none), [])
  | some p =>
    match p.isConnectedResult with
    | Except.ok true => (some (Except.ok (some p)), [Action.isConnectedCheck])
    | _ =>
      ((match (reconnectLoop env fuel 0).1 with
        | none => none
        | some (Except.error e) => some (Except.error e)
        | some (Except.ok q) => some (Except.ok (some q))),
       Action.isConnectedCheck :: Action.setHandle none :: (reconnectLoop env fuel 0).2)

/-
Concrete fixtures used by witnesses and counterexamples.
-/

/-- A readable peripheral advertising the target service whose connect() call
fails; used to exercise the bootstrap abort path. -/
def cexPeripheral : Peripheral :=
  { addr := 7,
    props := Except.ok (some
      { local_name := some "vibekeys", rssi := some (-60),
        services := [CONTROLLER_SERVICE_ID] }),
    connectResult := Except.error "connect refused",
    discoverResult := Except.ok (),
    characteristics := [],
    writeResult := fun _ _ => Except.ok (),
    isConnectedResult := Except.ok false }

/-- A scan environment in which every pass reports exactly cexPeripheral. -/
def cexEnv : Nat → List Peripheral := fun _ => [cexPeripheral]

/-- A connected peripheral whose characteristic list lacks the target
characteristic. -/
def noCharPeripheral : Peripheral :=
  { addr := 3,
    props := Except.ok (some
      { local_name := some "vibekeys", rssi := some (-55),
        services := [CONTROLLER_SERVICE_ID] }),
    connectResult := Except.ok (),
    discoverResult := Except.ok (),
    characteristics := [{ uuid := 0x1234, service_uuid := 0x5678 }],
    writeResult := fun _ _ => Except.ok (),
    isConnectedResult := Except.ok true }

/-- A peripheral exposing the target characteristic whose write() call fails. -/
def failWritePeripheral : Peripheral :=
  { addr := 9,
    props := Except.ok (some
      { local_name := none, rssi := none, services := [CONTROLLER_SERVICE_ID] }),
    connectResult := Except.ok (),
    discoverResult := Except.ok (),
    characteristics := [{ uuid := KEYBOARD_DISPLAY_ID, service_uuid := CONTROLLER_SERVICE_ID }],
    writeResult := fun _ _ => Except.error "write failed",
    isConnectedResult := Except.ok true }

/-- A peripheral carrying two distinct characteristics with the same target
UUID, distinguished by their service_uuid. -/
def dupCharPeripheral : Peripheral :=
  { addr := 4,
    props := Except.ok (some
      { local_name := none, rssi := none, services := [CONTROLLER_SERVICE_ID] }),
    connectResult := Except.ok (),
    discoverResult := Except.ok (),
    characteristics :=
      [{ uuid := KEYBOARD_DISPLAY_ID, service_uuid := 1 },
       { uuid := KEYBOARD_DISPLAY_ID, service_uuid := 2 }],
    writeResult := fun _ _ => Except.ok (),
    isConnectedResult := Except.ok true }

/-
Lemmas about the message-dispatch loop.
-/

/-- The action trace of sendLoop: one write to the first characteristic whose
uuid matches, and no write at all otherwise. -/
theorem sendLoop_trace (p : Peripheral) (u : Nat) (m : String)
    (l : List Characteristic) :
    (sendLoop p u m l).2 =
      (match l.find? (fun c => c.uuid == u) with
       | some c => [Action.write c m]
       | none => []) := by
  induction l with
  | nil => rfl
  | cons c rest ih =>
    by_cases h : (c.uuid == u) = true
    · cases hw : p.writeResult c m <;> simp [sendLoop, List.find?, h, hw]
    · have hb : (c.uuid == u) = false := by simpa using h
      simp [sendLoop, List.find?, hb, ih]

/-- When no characteristic matches, sendLoop returns Ok with an empty trace. -/
theorem sendLoop_ok_of_nomatch (p : Peripheral) (u : Nat) (m : String)
    (l : List Characteristic) (hl : ∀ c ∈ l, c.uuid ≠ u) :
    sendLoop p u m l = (Except.ok (), []) := by
  induction l with
  | nil => rfl
  | cons c rest ih =>
    have hc : (c.uuid == u) = false := by
      simpa using hl c (List.mem_cons_self c rest)
    simp only [sendLoop, hc, Bool.false_eq_true, if_false]
    exact ih fun d hd => hl d (List.mem_cons_of_mem c hd)

/-- A surfaced sendLoop error is a transport write failure on a matching
characteristic of the list. -/
theorem sendLoop_error_mem (p : Peripheral) (u : Nat) (m : String)
    (l : List Characteristic) (e : String)
    (h : (sendLoop p u m l).1 = Except.error e) :
    ∃ c, c ∈ l ∧ c.uuid = u ∧ p.writeResult c m = Except.error e := by
  induction l with
  | nil => simp [sendLoop] at h
  | cons c rest ih =>
    by_cases hc : (c.uuid == u) = true
    · cases hw : p.writeResult c m with
      | error e2 =>
        simp [sendLoop, hc, hw] at h
        exact ⟨c, List.mem_cons_self c rest, by simpa using hc, by rw [hw, h]⟩
      | ok _ => simp [sendLoop, hc, hw] at h
    · simp only [sendLoop, hc, Bool.false_eq_true, if_false] at h
      obtain ⟨d, hd, hdu, hdw⟩ := ih h
      exact ⟨d, List.mem_cons_of_mem c hd, hdu, hdw⟩

/-- send_message never performs a scan. -/
theorem send_message_no_scan (p : Peripheral) (u : Nat) (m : String)
    (f : List Nat) : Action.startScan f ∉ (send_message p u m).2 := by
  rw [send_message, sendLoop_trace]
  rcases hf : p.characteristics.find? (fun c => c.uuid == u) with _ | c <;> simp [hf]

/-- connect_and_discover never performs a scan. -/
theorem connect_no_scan (p : Peripheral) (f : List Nat) :
    Action.startScan f ∉ (connect_and_discover p).2 := by
  unfold connect_and_discover
  rcases hc : p.connectResult with e | u1
  · simp
  · rcases hd : p.discoverResult with e | u2
    · simp
    · simp [send_message_no_scan]

/-- C10: every invocation of send_message performs at most one characteristic
write; the scan stops at the first characteristic in list order whose uuid
equals the target id and only that characteristic receives the message. -/
theorem send_message_single_write (p : Peripheral) (u : Nat) (m : String) :
    (send_message p u m).2 =
      (match p.characteristics.find? (fun c => c.uuid == u) with
       | some c => [Action.write c m]
       | none => []) ∧
    (send_message p u m).2.length ≤ 1 := by
  refine ⟨by rw [send_message, sendLoop_trace], ?_⟩
  rw [send_message, sendLoop_trace]
  rcases hf : p.characteristics.find? (fun c => c.uuid == u) with _ | c <;> simp [hf]

/-- Witness for C10 at a peripheral carrying two characteristics with the
target uuid: exactly one write happens, to the first of them. -/
theorem send_message_single_write_witness :
    (send_message dupCharPeripheral KEYBOARD_DISPLAY_ID "hi").2 =
      [Action.write { uuid := KEYBOARD_DISPLAY_ID, service_uuid := 1 } "hi"] ∧
    (send_message dupCharPeripheral KEYBOARD_DISPLAY_ID "hi").2.length ≤ 1 :=
  ⟨((send_message_single_write dupCharPeripheral KEYBOARD_DISPLAY_ID "hi").1).trans (by rfl),
   (send_message_single_write dupCharPeripheral KEYBOARD_DISPLAY_ID "hi").2⟩

/-- C2: when the connection's characteristic list has no characteristic with
the target id, send_message succeeds with no write performed, so POST /send
against such a connected peripheral answers 200 while zero bytes were
transmitted; and the only error send_to_peripheral ever surfaces on a present
connection is a transport-level write failure (as a 500). -/
theorem missing_characteristic_swallowed :
    (∀ (p : Peripheral) (msg : String),
      (∀ c ∈ p.characteristics, c.uuid ≠ KEYBOARD_DISPLAY_ID) →
        send_message p KEYBOARD_DISPLAY_ID msg = (Except.ok (), []) ∧
        send_to_peripheral (some p) msg = (HResp.ok msg, []) ∧
        send_message_post (some p) { message := msg } = (HResp.ok msg, []))
  ∧ (∀ (p : Peripheral) (msg : String) (code : Nat) (body : String),
      (send_to_peripheral (some p) msg).1 = HResp.err code body →
        code = 500 ∧ ∃ c, c ∈ p.characteristics ∧ c.uuid = KEYBOARD_DISPLAY_ID ∧
          p.writeResult c msg = Except.error body) := by
  constructor
  · intro p msg hnone
    have hs : send_message p KEYBOARD_DISPLAY_ID msg = (Except.ok (), []) :=
      sendLoop_ok_of_nomatch p KEYBOARD_DISPLAY_ID msg p.characteristics hnone
    refine ⟨hs, ?_, ?_⟩ <;> simp [send_message_post, send_to_peripheral, hs]
  · intro p msg code body h
    unfold send_to_peripheral at h
    cases hr : (send_message p KEYBOARD_DISPLAY_ID msg).1 with
    | error e =>
      simp only [hr] at h
      obtain ⟨hcode, hbody⟩ : code = 500 ∧ e = body := by
        cases h
        exact ⟨rfl, rfl⟩
      subst hbody
      exact ⟨hcode, sendLoop_error_mem p KEYBOARD_DISPLAY_ID msg p.characteristics e hr⟩
    | ok _ => simp [hr] at h

/-- Witness for C2: a connected peripheral lacking the target characteristic
yields 200 with an empty action trace, and a failing transport write on a
matching characteristic surfaces as exactly a 500 with the error text. -/
theorem missing_characteristic_swallowed_witness :
    (send_to_peripheral (some noCharPeripheral) "hi" = (HResp.ok "hi", []) ∧
      send_message noCharPeripheral KEYBOARD_DISPLAY_ID "hi" = (Except.ok (), [])) ∧
    ∃ c, c ∈ failWritePeripheral.characteristics ∧ c.uuid = KEYBOARD_DISPLAY_ID ∧
      failWritePeripheral.writeResult c "hi" = Except.error "write failed" :=
  ⟨⟨(missing_characteristic_swallowed.1 noCharPeripheral "hi" (by decide)).2.1,
    (missing_characteristic_swallowed.1 noCharPeripheral "hi" (by decide)).1⟩,
   (missing_characteristic_swallowed.2 failWritePeripheral "hi" 500 "write failed" rfl).2⟩

/-- C6: with an empty Shared Device Handle, GET /send, POST /send and
POST /status all answer 503 with the fixed unavailability body, perform no
adapter operation and touch the handle with no setHandle action. -/
theorem empty_handle_unavailable (req : SendMessageRequest) (sreq : StatusRequest) :
    send_message_handler none = (HResp.err 503 "No BLE device connected", []) ∧
    send_message_post none req = (HResp.err 503 "No BLE device connected", []) ∧
    status_handler none sreq = (HResp.err 503 "No BLE device connected", []) :=
  ⟨rfl, rfl, rfl⟩

/-- Witness for C6, at a concrete POST /send body and a concrete POST /status
body. -/
theorem empty_handle_unavailable_witness :
    send_message_handler none = (HResp.err 503 "No BLE device connected", []) ∧
    send_message_post none { message := "hi" } = (HResp.err 503 "No BLE device connected", []) ∧
    status_handler none { status := Status.working } = (HResp.err 503 "No BLE device connected", []) :=
  empty_handle_unavailable { message := "hi" } { status := Status.working }

/-- C9: after a successful connect and discover, connect_and_discover returns
success whatever the outcome of the best-effort Connected greeting write, and
its trailing actions are exactly those of sending the Connected message. -/
theorem greeting_best_effort (p : Peripheral)
    (hc : p.connectResult = Except.ok ()) (hd : p.discoverResult = Except.ok ()) :
    (connect_and_discover p).1 = Except.ok () ∧
    (connect_and_discover p).2 =
      [Action.connect p.addr, Action.sleep 1, Action.discoverServices, Action.sleep 1,
       Action.listCharacteristics] ++ (send_message p KEYBOARD_DISPLAY_ID "Connected").2 := by
  unfold connect_and_discover
  rw [hc, hd]
  exact ⟨rfl, rfl⟩

/-- Witness for C9 at a peripheral whose greeting write fails: acquisition
still reports success. -/
theorem greeting_best_effort_witness :
    (connect_and_discover failWritePeripheral).1 = Except.ok () ∧
    (connect_and_discover failWritePeripheral).2 =
      [Action.connect failWritePeripheral.addr, Action.sleep 1, Action.discoverServices,
       Action.sleep 1, Action.listCharacteristics]
        ++ (send_message failWritePeripheral KEYBOARD_DISPLAY_ID "Connected").2 :=
  greeting_best_effort failWritePeripheral rfl rfl

/-- C7: the POST /status body token is matched case-sensitively against
exactly working, stopped, pending; each maps to its fixed literal message,
dispatched exactly as a /send message; any other token is rejected before
dispatch, with no action performed. -/
theorem status_token_mapping :
    (∀ (t : String) (s : Status), parseStatusToken t = some s ↔
      ((t = "working" ∧ s = Status.working) ∨ (t = "stopped" ∧ s = Status.stopped) ∨
       (t = "pending" ∧ s = Status.pending)))
  ∧ statusMessage Status.working = "[working]"
  ∧ statusMessage Status.stopped = "[stopped]"
  ∧ statusMessage Status.pending = "[pending]"
  ∧ (∀ (h : Option Peripheral) (t : String) (s : Status),
      parseStatusToken t = some s →
        status_route h t = send_to_peripheral h (statusMessage s))
  ∧ (∀ (h : Option Peripheral) (t : String),
      parseStatusToken t = none → status_route h t = (HResp.rejected, [])) := by
  refine ⟨?_, rfl, rfl, rfl, ?_, ?_⟩
  · intro t s
    constructor
    · intro h
      unfold parseStatusToken at h
      split_ifs at h with h1 h2 h3
      · injection h with h4
        exact Or.inl ⟨h1, h4.symm⟩
      · injection h with h4
        exact Or.inr (Or.inl ⟨h2, h4.symm⟩)
      · injection h with h4
        exact Or.inr (Or.inr ⟨h3, h4.symm⟩)
    · intro h
      rcases h with ⟨ht, hs⟩ | ⟨ht, hs⟩ | ⟨ht, hs⟩ <;> subst ht <;> subst hs <;> decide
  · intro h t s hp
    simp [status_route, hp, status_handler]
  · intro h t hp
    simp [status_route, hp]

/-- Witness for C7: the exact token working dispatches its literal through the
send path, and the capitalized token Working is rejected before dispatch. -/
theorem status_token_mapping_witness :
    status_route none "working" = send_to_peripheral none (statusMessage Status.working) ∧
    status_route none "Working" = (HResp.rejected, []) :=
  ⟨status_token_mapping.2.2.2.2.1 none "working" Status.working (by decide),
   status_token_mapping.2.2.2.2.2 none "Working" (by decide)⟩

/-
Lemmas about the Device Selector.
-/

/-- With an already-recorded result and every remaining device readable, the
selector loop keeps that result. -/
theorem findLoop_acc_some (t : Nat) (a : Peripheral) (ps : List Peripheral)
    (hok : ∀ p ∈ ps, propsOk p = true) :
    findLoop t (some a) ps = Except.ok (some a) := by
  induction ps with
  | nil => rfl
  | cons p rest ih =>
    have hp := hok p (List.mem_cons_self p rest)
    have hrest : ∀ q ∈ rest, propsOk q = true :=
      fun q hq => hok q (List.mem_cons_of_mem p hq)
    cases hpr : p.props with
    | error e => simp [propsOk, hpr] at hp
    | ok o =>
      cases o with
      | none => simp only [findLoop, hpr]; exact ih hrest
      | some pr =>
        simp only [findLoop, hpr, Option.isNone_some, Bool.false_eq_true, if_false, ite_self]
        exact ih hrest

/-- With every device readable, the selector loop started empty returns the
first device, in list order, advertising the target service. -/
theorem findLoop_none_find (t : Nat) (ps : List Peripheral)
    (hok : ∀ p ∈ ps, propsOk p = true) :
    findLoop t none ps = Except.ok (ps.find? (hasService t)) := by
  induction ps with
  | nil => rfl
  | cons p rest ih =>
    have hp := hok p (List.mem_cons_self p rest)
    have hrest : ∀ q ∈ rest, propsOk q = true :=
      fun q hq => hok q (List.mem_cons_of_mem p hq)
    cases hpr : p.props with
    | error e => simp [propsOk, hpr] at hp
    | ok o =>
      cases o with
      | none =>
        have hsv : hasService t p = false := by simp [hasService, hpr]
        simp only [findLoop, hpr, List.find?, hsv]
        exact ih hrest
      | some pr =>
        cases hb : pr.services.any (fun s => s == t) with
        | true =>
          have hsv : hasService t p = true := by simp [hasService, hpr, hb]
          simp only [findLoop, hpr, hb, if_true, Option.isNone_none, List.find?, hsv]
          exact findLoop_acc_some t p rest hrest
        | false =>
          have hsv : hasService t p = false := by simp [hasService, hpr, hb]
          simp only [findLoop, hpr, hb, Bool.false_eq_true, if_false, List.find?, hsv]
          exact ih hrest

/-- Reassigning RSSI values commutes with the selector loop up to the same
reassignment of the selected device. -/
theorem findLoop_setRssi (t : Nat) (f : Nat → Option Int) (ps : List Peripheral)
    (acc : Option Peripheral) :
    findLoop t (Option.map (setRssi f) acc) (ps.map (setRssi f)) =
      Except.map (fun o => Option.map (setRssi f) o) (findLoop t acc ps) := by
  induction ps generalizing acc with
  | nil => cases acc <;> rfl
  | cons p rest ih =>
    cases hpr : p.props with
    | error e =>
      have hpr2 : (setRssi f p).props = Except.error e := by simp [setRssi, hpr]
      simp only [List.map_cons, findLoop, hpr, hpr2, Except.map]
    | ok o =>
      cases o with
      | none =>
        have hpr2 : (setRssi f p).props = Except.ok none := by simp [setRssi, hpr]
        simp only [List.map_cons, findLoop, hpr, hpr2]
        exact ih acc
      | some pr =>
        have hpr2 : (setRssi f p).props =
            Except.ok (some { pr with rssi := f p.addr }) := by simp [setRssi, hpr]
        simp only [List.map_cons, findLoop, hpr, hpr2]
        cases hb : pr.services.any (fun s => s == t) with
        | true =>
          simp only [hb, if_true]
          cases acc with
          | none =>
            have : (some (setRssi f p)) = Option.map (setRssi f) (some p) := rfl
            simp only [Option.map_none, Option.isNone_none, if_true, this]
            exact ih (some p)
          | some a =>
            simp only [Option.map_some, Option.isNone_some, Bool.false_eq_true, if_false]
            exact ih (some a)
        | false =>
          simp only [hb, Bool.false_eq_true, if_false]
          exact ih acc

/-- The address of a device is unchanged by RSSI reassignment. -/
theorem setRssi_addr (f : Nat → Option Int) (p : Peripheral) :
    (setRssi f p).addr = p.addr := rfl

/-- C3: with every device readable, the Device Selector returns the first
device in report order whose advertised service set contains the target id
(none when no device advertises it), and reassigning every device's RSSI
arbitrarily never changes which address is selected. -/
theorem selector_first_match (ps : List Peripheral) (t : Nat) (f : Nat → Option Int)
    (_hne : 0 < ps.length) (hok : ∀ p ∈ ps, propsOk p = true) :
    find_and_print_peripherals ps t = Except.ok (ps.find? (hasService t)) ∧
    resultAddr (find_and_print_peripherals (ps.map (setRssi f)) t) =
      resultAddr (find_and_print_peripherals ps t) := by
  refine ⟨findLoop_none_find t ps hok, ?_⟩
  unfold find_and_print_peripherals
  have h : findLoop t none (List.map (setRssi f) ps) =
      Except.map (fun o => Option.map (setRssi f) o) (findLoop t none ps) :=
    findLoop_setRssi t f ps none
  rw [h]
  cases hr : findLoop t none ps with
  | error e => rfl
  | ok o => cases o <;> simp [resultAddr, Except.map, setRssi_addr]

/-- Device A advertises the target service at RSSI minus 60. -/
def devA : Peripheral :=
  { addr := 10,
    props := Except.ok (some
      { local_name := some "A", rssi := some (-60),
        services := [CONTROLLER_SERVICE_ID] }),
    connectResult := Except.ok (),
    discoverResult := Except.ok (),
    characteristics := [],
    writeResult := fun _ _ => Except.ok (),
    isConnectedResult := Except.ok true }

/-- Device B advertises no matching service but a stronger RSSI. -/
def devB : Peripheral :=
  { addr := 11,
    props := Except.ok (some
      { local_name := some "B", rssi := some (-30), services := [0x42] }),
    connectResult := Except.ok (),
    discoverResult := Except.ok (),
    characteristics := [],
    writeResult := fun _ _ => Except.ok (),
    isConnectedResult := Except.ok true }

/-- Witness for C3, on the spec scenario: A matches at RSSI minus 60, B has
stronger RSSI but no matching service; the selector picks A, and flattening
every RSSI to zero picks the same address. -/
theorem selector_first_match_witness :
    find_and_print_peripherals [devA, devB] CONTROLLER_SERVICE_ID =
      Except.ok ([devA, devB].find? (hasService CONTROLLER_SERVICE_ID)) ∧
    resultAddr (find_and_print_peripherals ([devA, devB].map (setRssi fun _ => some 0))
        CONTROLLER_SERVICE_ID) =
      resultAddr (find_and_print_peripherals [devA, devB] CONTROLLER_SERVICE_ID) :=
  selector_first_match [devA, devB] CONTROLLER_SERVICE_ID (fun _ => some 0)
    (by decide) (by decide)

/-- A device whose properties() call returns Err. -/
def errDev : Peripheral :=
  { addr := 1,
    props := Except.error "boom",
    connectResult := Except.ok (),
    discoverResult := Except.ok (),
    characteristics := [],
    writeResult := fun _ _ => Except.ok (),
    isConnectedResult := Except.ok true }

/-- Counterexample for C4: with a first device whose property read errors and
a second, perfectly readable device advertising the target service, the
Device Selector returns the property-read error instead of the readable
matching device — a device whose properties cannot be read is not skipped,
it errors the whole pass. -/
theorem selector_error_counterexample :
    find_and_print_peripherals [errDev, devA] CONTROLLER_SERVICE_ID =
      Except.error "boom" ∧
    propsOk devA = true ∧ hasService CONTROLLER_SERVICE_ID devA = true ∧
    find_and_print_peripherals [errDev, devA] CONTROLLER_SERVICE_ID ≠
      Except.ok (some devA) := by
  refine ⟨rfl, rfl, by decide, ?_⟩
  intro h
  rw [show find_and_print_peripherals [errDev, devA] CONTROLLER_SERVICE_ID =
      Except.error "boom" from rfl] at h
  exact Except.noConfusion h

/-- C4 as amended: a device whose properties() call returns Ok None is
skipped and treated as non-matching, but a device whose properties() call
returns Err makes the whole selector pass return an error — even when a
readable matching device is present elsewhere in the list. -/
theorem selector_unreadable_amended :
    (∀ (p : Peripheral) (ps : List Peripheral) (t : Nat),
      p.props = Except.ok none →
        find_and_print_peripherals (p :: ps) t = find_and_print_peripherals ps t)
  ∧ (∀ (ps : List Peripheral) (t : Nat),
      (∃ p, p ∈ ps ∧ propsErr p = true) →
        ∃ e, find_and_print_peripherals ps t = Except.error e) := by
  constructor
  · intro p ps t hp
    unfold find_and_print_peripherals
    simp only [findLoop, hp]
  · intro ps t hex
    unfold find_and_print_peripherals
    have main : ∀ (l : List Peripheral) (acc : Option Peripheral),
        (∃ p, p ∈ l ∧ propsErr p = true) → ∃ e, findLoop t acc l = Except.error e := by
      intro l
      induction l with
      | nil => intro acc h; obtain ⟨p, hp, _⟩ := h; simp at hp
      | cons q rest ih =>
        intro acc h
        cases hq : q.props with
        | error e => exact ⟨e, by simp [findLoop, hq]⟩
        | ok o =>
          obtain ⟨p, hp, hperr⟩ := h
          have hrest : ∃ p, p ∈ rest ∧ propsErr p = true := by
            rcases List.mem_cons.mp hp with rfl | hmem
            · simp [propsErr, hq] at hperr
            · exact ⟨p, hmem, hperr⟩
          cases o with
          | none =>
            obtain ⟨e, he⟩ := ih acc hrest
            exact ⟨e, by simp only [findLoop, hq]; exact he⟩
          | some pr =>
            obtain ⟨e, he⟩ := ih
              (if pr.services.any (fun s => s == t) then
                 (if acc.isNone then some q else acc) else acc) hrest
            exact ⟨e, by simp only [findLoop, hq]; exact he⟩
    exact main ps none hex

/-- Witness for C4 as amended: an Ok-None device in front of the A/B scenario
is skipped, and a list containing an erroring device yields a selector
error. -/
theorem selector_unreadable_amended_witness :
    find_and_print_peripherals
        [{ errDev with props := Except.ok none }, devA] CONTROLLER_SERVICE_ID =
      find_and_print_peripherals [devA] CONTROLLER_SERVICE_ID ∧
    ∃ e, find_and_print_peripherals [devA, errDev] CONTROLLER_SERVICE_ID =
      Except.error e :=
  ⟨selector_unreadable_amended.1 { errDev with props := Except.ok none } [devA]
      CONTROLLER_SERVICE_ID rfl,
   selector_unreadable_amended.2 [devA, errDev] CONTROLLER_SERVICE_ID
      ⟨errDev, by simp, rfl⟩⟩

/-
The connection-lifecycle claims.
-/

/-- Counterexample for C1: with a single advertising device whose connect()
call fails, the bootstrap acquisition does not loop back to scanning — main
returns the connect error (via the ? on connect_and_discover), aborting the
process.  Larger fuel gives the same terminated error, so this is not a fuel
artifact. -/
theorem bootstrap_connect_abort_counterexample :
    (mainBootstrap cexEnv 3).1 = some (Except.error "connect refused") ∧
    (mainBootstrap cexEnv 10).1 = some (Except.error "connect refused") :=
  ⟨rfl, rfl⟩

/-- With every pass of the selector finding nothing, the bootstrap find loop
never terminates with a surfaced value. -/
theorem bootstrapFindLoop_none (env : Nat → List Peripheral)
    (h : ∀ k, find_and_print_peripherals (env k) CONTROLLER_SERVICE_ID = Except.ok none) :
    ∀ (fuel k : Nat), (bootstrapFindLoop env fuel k).1 = none := by
  intro fuel
  induction fuel with
  | zero => intro k; rfl
  | succ n ih =>
    intro k
    simp only [bootstrapFindLoop, h k]
    exact ih (k+1)

/-- C1 as amended: not-found scan passes retry indefinitely at bootstrap, and
a connect_and_discover failure inside the monitor-triggered reconnection loop
is treated like not-found and loops to the next pass; but at bootstrap a
connect_and_discover failure propagates out of main and aborts the process
instead of looping back to scanning. -/
theorem acquisition_failure_semantics :
    (∀ (env : Nat → List Peripheral) (fuel : Nat),
      (∀ k, find_and_print_peripherals (env k) CONTROLLER_SERVICE_ID = Except.ok none) →
        (mainBootstrap env fuel).1 = none)
  ∧ (∀ (env : Nat → List Peripheral) (fuel : Nat) (target : Peripheral) (e : String),
      (bootstrapFindLoop env fuel 0).1 = some (Except.ok target) →
      (connect_and_discover target).1 = Except.error e →
        (mainBootstrap env fuel).1 = some (Except.error e))
  ∧ (∀ (env : Nat → List Peripheral) (fuel k : Nat) (target : Peripheral) (e : String),
      find_and_print_peripherals (env k) CONTROLLER_SERVICE_ID = Except.ok (some target) →
      (connect_and_discover target).1 = Except.error e →
        (reconnectLoop env (fuel+1) k).1 = (reconnectLoop env fuel (k+1)).1) := by
  refine ⟨?_, ?_, ?_⟩
  · intro env fuel h
    unfold mainBootstrap
    rw [bootstrapFindLoop_none env h fuel 0]
  · intro env fuel target e h1 h2
    simp only [mainBootstrap, h1, h2]
  · intro env fuel k target e h1 h2
    simp only [reconnectLoop, h1, h2]

/-- Witness for C1 as amended: an always-empty environment keeps bootstrap
looping; the connect-refusing device aborts bootstrap with its error; the same
device makes one monitor reconnection pass fall through to the next. -/
theorem acquisition_failure_semantics_witness :
    (mainBootstrap (fun _ => ([] : List Peripheral)) 4).1 = none ∧
    (mainBootstrap cexEnv 2).1 = some (Except.error "connect refused") ∧
    (reconnectLoop cexEnv 1 0).1 = (reconnectLoop cexEnv 0 1).1 :=
  ⟨acquisition_failure_semantics.1 (fun _ => []) 4 (fun _ => rfl),
   acquisition_failure_semantics.2.1 cexEnv 2 cexPeripheral "connect refused" rfl rfl,
   acquisition_failure_semantics.2.2 cexEnv 0 0 cexPeripheral "connect refused" rfl rfl⟩

/-- On loss detection the monitor's action trace is exactly the liveness
check, then the handle clear, then the reconnection loop's actions. -/
theorem monitorTick_trace_dead (env : Nat → List Peripheral) (fuel : Nat)
    (p : Peripheral) (hdead : p.isConnectedResult ≠ Except.ok true) :
    (monitorTick env fuel (some p)).2 =
      Action.isConnectedCheck :: Action.setHandle none :: (reconnectLoop env fuel 0).2 := by
  cases hic : p.isConnectedResult with
  | error e => simp [monitorTick, hic]
  | ok b =>
    cases b with
    | true => exact absurd hic hdead
    | false => simp [monitorTick, hic]

/-- C5: whenever a liveness check on a present connection returns anything
other than confirmed-connected, every prefix of the monitor's action trace
that contains a reconnection scan also contains the handle clear — the
Shared Device Handle is set to empty strictly before any scan starts. -/
theorem clear_before_reconnect_scan (env : Nat → List Peripheral) (fuel : Nat)
    (p : Peripheral) (f : List Nat) (n : Nat)
    (hdead : p.isConnectedResult ≠ Except.ok true)
    (hscan : Action.startScan f ∈ (monitorTick env fuel (some p)).2.take n) :
    Action.setHandle none ∈ (monitorTick env fuel (some p)).2.take n := by
  rw [monitorTick_trace_dead env fuel p hdead] at hscan ⊢
  match n with
  | 0 => simp at hscan
  | 1 => simp [List.take_succ_cons] at hscan
  | (n+2) => simp [List.take_succ_cons]

/-- Witness for C5: a dead connection and an environment carrying one
advertising device; the trace's three-action prefix already contains both the
scan and, before it, the clear. -/
theorem clear_before_reconnect_scan_witness :
    Action.setHandle none ∈ (monitorTick cexEnv 1 (some cexPeripheral)).2.take 3 :=
  clear_before_reconnect_scan cexEnv 1 cexPeripheral [] 3 (by simp [cexPeripheral]) (by decide)

/-- Every scan the bootstrap find loop starts carries the bootstrap filter. -/
theorem bootstrapFindLoop_scan_filter (env : Nat → List Peripheral) :
    ∀ (fuel k : Nat) (f : List Nat),
      Action.startScan f ∈ (bootstrapFindLoop env fuel k).2 → f = bootFilter := by
  intro fuel
  induction fuel with
  | zero => intro k f h; simp [bootstrapFindLoop] at h
  | succ n ih =>
    intro k f h
    unfold bootstrapFindLoop at h
    split at h
    · simp at h
    · simp at h
    · simp at h
      rcases h with h | h
      · exact h
      · exact ih (k+1) f h

/-- Every scan the monitor reconnection loop starts is unfiltered. -/
theorem reconnectLoop_scan_unfiltered (env : Nat → List Peripheral) :
    ∀ (fuel k : Nat) (f : List Nat),
      Action.startScan f ∈ (reconnectLoop env fuel k).2 → f = [] := by
  intro fuel
  induction fuel with
  | zero => intro k f h; simp [reconnectLoop] at h
  | succ n ih =>
    intro k f h
    unfold reconnectLoop at h
    split at h
    · simp at h
      exact h
    · simp at h
      rcases h with h | h
      · exact h
      · exact ih (k+1) f h
    · split at h
      · simp at h
        rcases h with h | h | h
        · exact h
        · exact absurd h (connect_no_scan _ f)
        · exact ih (k+1) f h
      · simp at h
        rcases h with h | h
        · exact h
        · exact absurd h (connect_no_scan _ f)

/-- C8: every scan started along the bootstrap acquisition path carries the
filter holding the target service id, every scan started by a monitor tick is
unfiltered, and when a pass's discovered list makes the shared Device
Selector pick a target that connects cleanly, both loops settle on that same
selected target. -/
theorem scan_filter_asymmetry :
    (∀ (env : Nat → List Peripheral) (fuel : Nat) (f : List Nat),
      Action.startScan f ∈ (mainBootstrap env fuel).2 → f = bootFilter)
  ∧ (∀ (env : Nat → List Peripheral) (fuel : Nat) (h : Option Peripheral) (f : List Nat),
      Action.startScan f ∈ (monitorTick env fuel h).2 → f = [])
  ∧ (∀ (env : Nat → List Peripheral) (fuel k : Nat) (target : Peripheral),
      find_and_print_peripherals (env k) CONTROLLER_SERVICE_ID = Except.ok (some target) →
      (connect_and_discover target).1 = Except.ok () →
        (bootstrapFindLoop env (fuel+1) k).1 = some (Except.ok target) ∧
        (reconnectLoop env (fuel+1) k).1 = some (Except.ok target)) := by
  refine ⟨?_, ?_, ?_⟩
  · intro env fuel f h
    unfold mainBootstrap at h
    split at h
    · simp at h
      rcases h with h | h
      · exact h
      · exact bootstrapFindLoop_scan_filter env fuel 0 f h
    · simp at h
      rcases h with h | h
      · exact h
      · exact bootstrapFindLoop_scan_filter env fuel 0 f h
    · split at h
      · simp at h
        rcases h with h | h | h
        · exact h
        · exact bootstrapFindLoop_scan_filter env fuel 0 f h
        · exact absurd h (connect_no_scan _ f)
      · simp at h
        rcases h with h | h | h
        · exact h
        · exact bootstrapFindLoop_scan_filter env fuel 0 f h
        · exact absurd h (connect_no_scan _ f)
  · intro env fuel hd f h
    rcases hd with _ | p
    · simp [monitorTick] at h
    · cases hic : p.isConnectedResult with
      | error e =>
        rw [monitorTick_trace_dead env fuel p (by simp [hic])] at h
        simp at h
        exact reconnectLoop_scan_unfiltered env fuel 0 f h
      | ok b =>
        cases b with
        | true => simp [monitorTick, hic] at h
        | false =>
          rw [monitorTick_trace_dead env fuel p (by simp [hic])] at h
          simp at h
          exact reconnectLoop_scan_unfiltered env fuel 0 f h
  · intro env fuel k target h1 h2
    constructor
    · simp only [bootstrapFindLoop, h1]
    · simp only [reconnectLoop, h1, h2]

/-- Witness for C8: a bootstrap trace whose scan carries the filter, a
monitor trace whose scan is unfiltered, and a cleanly-connecting device
selected identically by both loops. -/
theorem scan_filter_asymmetry_witness :
    bootFilter = bootFilter ∧ ([] : List Nat) = [] ∧
    ((bootstrapFindLoop (fun _ => [devA]) 1 0).1 = some (Except.ok devA) ∧
     (reconnectLoop (fun _ => [devA]) 1 0).1 = some (Except.ok devA)) :=
  ⟨scan_filter_asymmetry.1 (fun _ => []) 1 bootFilter (by decide),
   scan_filter_asymmetry.2.1 cexEnv 1 (some cexPeripheral) [] (by decide),
   scan_filter_asymmetry.2.2 (fun _ => [devA]) 0 0 devA rfl rfl⟩

end Vibekeys
